import Mathlib

/-!
Verification of the multi-tenant authorization layer: permission resolution
engine, cache layer and invalidation, token claims snapshot, and the token
revocation registry (blocklist).

Python sources embedded here:
- dependencies/dependencies.py (`_normalize_perm`, `is_super_admin`,
  `get_user_permissions`, `require_permissions`,
  `invalidate_user_permission_from_cache`, the revoked-jti step of
  `TokenBearer.__call__`)
- auth_helpers/auth_helpers.py (`get_global_role_for_user`,
  `get_hospital_roles_for_user`, `build_permissions_snapshot`,
  `build_token_user_payload`)
- database/redis.py (`add_jti_to_blocklist`, `token_in_blocklist`)
- service/auth_service.py (`authenticate_user`, token payload part)

The SQLAlchemy table rows are embedded as structures; the `models` module
itself is not part of the sources, so the column lists follow the data model
described in the specification together with every column the embedded
queries reference (user_id, permission_name, scope, hospital_id, is_active,
role ids and names).
-/

/-! ## String helpers

Python's `str.strip`, `str.lower` and `sorted` are modelled by structural
recursion over the character list of a string, so that all definitions can
be evaluated by the kernel.  All permission names and role names involved
are ASCII, where these models agree with Python exactly.
-/

/-- Drop leading whitespace characters from a character list. -/
def dropWhite : List Char → List Char
  | [] => []
  | c :: cs => if c.isWhitespace then dropWhite cs else c :: cs

/-- Python `str.strip()`: remove leading and trailing whitespace. -/
def pyStrip (s : String) : String :=
  ⟨(dropWhite (dropWhite s.data).reverse).reverse⟩

/-- Python `str.lower()` (ASCII case folding). -/
def pyLower (s : String) : String := ⟨s.data.map Char.toLower⟩

/-- dependencies.py `_normalize_perm`: `p.strip().lower()`. -/
def _normalize_perm (p : String) : String := pyLower (pyStrip p)

/-- Code-point comparison of characters, as Python string comparison uses. -/
def charLtB (a b : Char) : Bool := a.val < b.val

/-- Lexicographic comparison of character lists (Python string `<`). -/
def strListLt : List Char → List Char → Bool
  | [], [] => false
  | [], _ :: _ => true
  | _ :: _, [] => false
  | a :: as2, b :: bs => if a == b then strListLt as2 bs else charLtB a b

/-- Python `<` on strings. -/
def strLtB (a b : String) : Bool := strListLt a.data b.data

/-- Insert a string into a sorted list (helper for `sortStrings`). -/
def insertSorted (x : String) : List String → List String
  | [] => [x]
  | y :: ys => if strLtB x y then x :: y :: ys else y :: insertSorted x ys

/-- Python `sorted` on a collection of strings (insertion sort). -/
def sortStrings : List String → List String
  | [] => []
  | x :: xs => insertSorted x (sortStrings xs)

/-- Python `set.add` on a set represented as a duplicate-free list.  The
representation order is the insertion order; every observable use below
either sorts the list or takes its `toFinset`. -/
def setAdd (l : List String) (x : String) : List String :=
  if x ∈ l then l else l ++ [x]

/-! ## Database rows

Modelled from the spec: the `models` module with the SQLAlchemy table
declarations is not among the sources; each structure carries the key
attributes the specification's data model lists for the corresponding
entity, which are exactly the columns the embedded queries read.
`Option` models SQL NULL for nullable columns; a SQL NULL text column read
through Python's `or ""` idiom is modelled as the empty string. -/

/-- A row of `users` (spec entity `User`). -/
structure UserRow where
  user_id : Nat
  username : String
  email : String
  global_role_id : Option Nat
deriving DecidableEq

/-- A row of `role_master` (spec entity `GlobalRole`). -/
structure RoleMasterRow where
  role_id : Nat
  role_name : String
deriving DecidableEq

/-- A row of `role_permission` (spec entity `RolePermissionLink`). -/
structure RolePermissionRow where
  role_id : Nat
  permission_id : Nat
deriving DecidableEq

/-- A row of `permission_master` (spec entity `Permission`). -/
structure PermissionMasterRow where
  permission_id : Nat
  permission_name : String
deriving DecidableEq

/-- A row of `user_permissions` (spec entity `DirectPermissionGrant`). -/
structure UserPermissionsRow where
  user_id : Nat
  permission_name : String
  scope : Option String
  hospital_id : Option Nat
deriving DecidableEq

/-- A row of `hospital_user_roles` (spec entity `TenantRoleAssignment`). -/
structure HospitalUserRolesRow where
  user_id : Nat
  hospital_id : Nat
  hospital_role_id : Nat
  is_active : Bool
deriving DecidableEq

/-- A row of `hospital_role_permission` (spec entity `TenantRolePermissionLink`). -/
structure HospitalRolePermissionRow where
  hospital_role_id : Nat
  permission_id : Nat
deriving DecidableEq

/-- A row of `hospital_role` (spec entity `TenantRole`). -/
structure HospitalRoleRow where
  hospital_role_id : Nat
  hospital_id : Nat
  role_name : String
  is_active : Bool
deriving DecidableEq

/-- The relational store consulted by the resolution engine. -/
structure DB where
  users : List UserRow
  role_master : List RoleMasterRow
  role_permission : List RolePermissionRow
  permission_master : List PermissionMasterRow
  user_permissions : List UserPermissionsRow
  hospital_user_roles : List HospitalUserRolesRow
  hospital_role_permission : List HospitalRolePermissionRow
  hospital_role : List HospitalRoleRow
deriving DecidableEq

/-! ## The three subqueries of `get_user_permissions`

dependencies.py lines 126-139.  Each subquery is translated by SQL
semantics: a joined SELECT contributes a row's `permission_name` whenever
matching rows of the joined tables exist.  The three results are combined
with UNION ALL and collapsed into a Python set, so only the set of produced
names is observable. -/

/-- `direct_q`: `SELECT permission_name FROM user_permissions WHERE user_id = :uid`.
Note that the live query has no scope filter and no hospital filter. -/
def direct_q (db : DB) (uid : Nat) : List String :=
  (db.user_permissions.filter (fun up => up.user_id == uid)).map
    (fun up => up.permission_name)

/-- `global_q`: permission names joined through `role_permission` to
`role_master`, restricted by `role_master.role_id = users.global_role_id`.
The `users` table enters the FROM clause through that WHERE condition
without any restriction to the requesting user, i.e. a cross join: a name
qualifies when the role is the global role of SOME user row. -/
def global_q (db : DB) : List String :=
  (db.permission_master.filter (fun pm =>
    db.role_permission.any (fun rp =>
      rp.permission_id == pm.permission_id &&
      db.role_master.any (fun rm =>
        rm.role_id == rp.role_id &&
        db.users.any (fun u => u.global_role_id == some rm.role_id))))).map
    (fun pm => pm.permission_name)

/-- `hospital_q`: permission names joined through `hospital_role_permission`
to `hospital_user_roles` rows of the user; the hospital filter is added only
when `hospital_id` is truthy (`if hospital_id:`), and there is no
`is_active` filter. -/
def hospital_q (db : DB) (uid : Nat) (hid : Option Nat) : List String :=
  (db.permission_master.filter (fun pm =>
    db.hospital_role_permission.any (fun hrp =>
      hrp.permission_id == pm.permission_id &&
      db.hospital_user_roles.any (fun hur =>
        hur.hospital_role_id == hrp.hospital_role_id &&
        hur.user_id == uid &&
        (match hid with
         | some h => h == 0 || hur.hospital_id == h
         | none => true))))).map
    (fun pm => pm.permission_name)

/-- The UNION ALL of the three subqueries, in source order. -/
def rawPermNames (db : DB) (uid : Nat) (hid : Option Nat) : List String :=
  direct_q db uid ++ global_q db ++ hospital_q db uid hid

/-- dependencies.py line 142:
`set(p.strip().lower() for p in execution.scalars().all() if p)` —
the store-side computation of `get_user_permissions` (the value computed on
a cache miss and returned). -/
def resolvePerms (db : DB) (uid : Nat) (hid : Option Nat) : Finset String :=
  (((rawPermNames db uid hid).filter (fun p => p ≠ "")).map _normalize_perm).toFinset

/-- Follows the claim wording, not the source: the union the specification
asserts for `resolve(userId, tenantId?)` — the user's direct platform
grants, the user's own global role's linked permissions, the user's direct
tenant grants for the given tenant only, and the linked permissions of the
tenant roles the user actively holds in that tenant only, all normalized. -/
def claimedResolve (db : DB) (uid : Nat) (hid : Option Nat) : Finset String :=
  let directPlatform :=
    (db.user_permissions.filter (fun g =>
      g.user_id == uid && pyLower (pyStrip (g.scope.getD "")) == "platform")).map
      (fun g => g.permission_name)
  let ownGlobal :=
    match (db.users.find? (fun u => u.user_id == uid)).bind
        (fun u => u.global_role_id) with
    | some rid =>
        (db.permission_master.filter (fun pm =>
          db.role_permission.any (fun rp =>
            rp.role_id == rid && rp.permission_id == pm.permission_id))).map
          (fun pm => pm.permission_name)
    | none => []
  let directTenant :=
    match hid with
    | some h =>
        (db.user_permissions.filter (fun g =>
          g.user_id == uid && pyLower (pyStrip (g.scope.getD "")) == "tenant" &&
          g.hospital_id == some h)).map (fun g => g.permission_name)
    | none => []
  let tenantRole :=
    match hid with
    | some h =>
        (db.permission_master.filter (fun pm =>
          db.hospital_role_permission.any (fun hrp =>
            hrp.permission_id == pm.permission_id &&
            db.hospital_user_roles.any (fun hur =>
              hur.hospital_role_id == hrp.hospital_role_id &&
              hur.user_id == uid && hur.is_active &&
              hur.hospital_id == h)))).map (fun pm => pm.permission_name)
    | none => []
  (((directPlatform ++ ownGlobal ++ directTenant ++ tenantRole).filter
      (fun p => p ≠ "")).map _normalize_perm).toFinset

/-! ## Token user payload and the superadmin check

The `user` claim inside a token is a Python dict; its possible fields are
modelled as a structure where `none` stands for an absent key (and, for
`user_id`, the value `0` stands for a falsy/absent identifier, as the
source only ever tests it for truthiness or positivity). -/

/-- The `global_role` object embedded in a token (`{role_id, role_name}`);
`none` fields model absent or non-string/non-int values. -/
structure GlobalRoleClaim where
  role_id : Option Nat
  role_name : Option String
deriving DecidableEq

/-- One element of the `hospital_roles` list of a token payload. -/
structure HospRoleClaim where
  hospital_id : Nat
  hospital_role_id : Nat
  role_name : Option String
deriving DecidableEq

/-- One group of the grouped `permissions` token claim
(`{"scope": ..., "hospital_id": ..., "permissions": [...]}`). -/
structure SnapshotGroup where
  scope : String
  hospital_id : Option Nat
  permissions : List String
deriving DecidableEq

/-- The inner `user` claim of a token.  `hospital_roles = none` and
`permissions = none` model the keys being absent from the dict. -/
structure TokenUserPayload where
  user_id : Nat
  username : String
  email : Option String
  global_role : Option GlobalRoleClaim
  hospital_roles : Option (List HospRoleClaim)
  permissions : Option (List SnapshotGroup)
deriving DecidableEq

/-- dependencies.py `is_super_admin`: the user's `global_role` must be a
dict whose `role_name` is a string that strips and lowercases to
`"superadmin"`. -/
def is_super_admin (user : TokenUserPayload) : Bool :=
  match user.global_role with
  | none => false
  | some gr =>
    match gr.role_name with
    | none => false
    | some rname => pyLower (pyStrip rname) == "superadmin"

/-! ## Cache model

The redis client used by `get_user_permissions` and `require_permissions`.
Values are stored serialized; a stored permission set is only ever read
back through `set(json.loads(...))` and a stored decision through its two
fields, so entries are modelled at that level.  `failing = true` models the
client raising on any operation (redis unreachable).  Neither call site
wraps a cache operation in try/except, so in the embedding a failing cache
surfaces as `Except.error`. -/

/-- A cached guard decision (`{"allowed": ..., "missing": [...]}`). -/
structure Decision where
  allowed : Bool
  missing : List String
deriving DecidableEq

/-- The redis cache as seen by resolution and guards. -/
structure Cache where
  failing : Bool
  perms : String → Option (List String)
  decisions : String → Option Decision

/-- Key scope component: Python `hospital_id or "global"`. -/
def hospitalKeyOf (hid : Option Nat) : String :=
  match hid with
  | some h => if h = 0 then "global" else toString h
  | none => "global"

/-- Permission-set cache key `user:{uid}:hospital:{scope}:perms`
(dependencies.py line 120). -/
def permsKeyFor (uid : Nat) (hid : Option Nat) : String :=
  "user:" ++ toString uid ++ ":hospital:" ++ hospitalKeyOf hid ++ ":perms"

/-- Store a permission list under a key. -/
def cacheSetPerms (c : Cache) (k : String) (v : List String) : Cache :=
  { c with perms := fun k2 => if k2 = k then some v else c.perms k2 }

/-- Store a decision under a key. -/
def cacheSetDecision (c : Cache) (k : String) (d : Decision) : Cache :=
  { c with decisions := fun k2 => if k2 = k then some d else c.decisions k2 }

/-- dependencies.py `get_user_permissions` (lines 116-145): read the
permission-set cache (an un-handled raise if the cache fails), return the
cached set on a hit, otherwise resolve against the store, write the result
back with a TTL and return it.  The result pairs the returned set with the
cache state after the call. -/
def get_user_permissions (db : DB) (c : Cache) (uid : Nat) (hid : Option Nat) :
    Except Unit (Finset String × Cache) :=
  if c.failing then .error ()
  else
    match c.perms (permsKeyFor uid hid) with
    | some cachedList => .ok (cachedList.toFinset, c)
    | none =>
        let fresh := ((rawPermNames db uid hid).filter (fun p => p ≠ "")).map
          _normalize_perm
        .ok (fresh.toFinset,
             cacheSetPerms c (permsKeyFor uid hid) fresh.dedup)

/-- Decision cache key
`permcheck:user:{uid}:hospital:{scope}:{sorted required, comma-joined}`
(dependencies.py line 163). -/
def decisionKeyFor (uid : Nat) (hid : Option Nat) (requiredList : List String) :
    String :=
  "permcheck:user:" ++ toString uid ++ ":hospital:" ++ hospitalKeyOf hid ++ ":" ++
    String.intercalate "," (sortStrings requiredList)

/-- The outcome of one run of a permission-guard dependency. -/
inductive GuardOutcome where
  /-- The guard returned the user (access allowed). -/
  | allowed (user : TokenUserPayload)
  /-- HTTP 401. -/
  | unauthorized
  /-- HTTP 403 with the missing permissions. -/
  | forbidden (missing : Finset String)
  /-- An exception escaped the dependency (e.g. a cache operation raised). -/
  | exn
deriving DecidableEq

/-- dependencies.py `require_permissions` (lines 147-184): the dependency a
guard built from `permissions` and `allow_super_admin` runs for a request
whose token user is `user` and whose path carries `path_hid` as tenant id.
Returns the outcome together with the cache state after the call. -/
def require_permissions (permissions : List String) (allow_super_admin : Bool)
    (user : TokenUserPayload) (path_hid : Option Nat) (db : DB) (c : Cache) :
    GuardOutcome × Cache :=
  let requiredList := (permissions.map _normalize_perm).dedup
  if allow_super_admin && is_super_admin user then (.allowed user, c)
  else if user.user_id = 0 then (.unauthorized, c)
  else
    let ck := decisionKeyFor user.user_id path_hid requiredList
    if c.failing then (.exn, c)
    else
      match c.decisions ck with
      | some d =>
          if d.allowed then (.allowed user, c) else (.forbidden d.missing.toFinset, c)
      | none =>
          match get_user_permissions db c user.user_id path_hid with
          | .error _ => (.exn, c)
          | .ok (found, c1) =>
              let missingList := requiredList.filter (fun p => decide (p ∉ found))
              if missingList = [] then
                (.allowed user, cacheSetDecision c1 ck ⟨true, []⟩)
              else
                (.forbidden missingList.toFinset,
                 cacheSetDecision c1 ck ⟨false, missingList⟩)

/-! ## Invalidation (dependencies.py lines 189-196)

For invalidation the cache is viewed as its key space: a list of
key/value entries.  `scan_iter` is called with a glob pattern built as a
fixed text followed by a single trailing `*`; deleting every yielded key
therefore removes exactly the keys whose initial segment is that text. -/

/-- Whether the first character list is an initial segment of the second. -/
def listLeadMatch : List Char → List Char → Bool
  | [], _ => true
  | _ :: _, [] => false
  | a :: as2, b :: bs => a == b && listLeadMatch as2 bs

/-- Whether `p` is an initial segment of `s`. -/
def strLeadMatch (p s : String) : Bool := listLeadMatch p.data s.data

/-- The cache viewed as a key/value store (for deletion patterns). -/
structure KVStore where
  entries : List (String × String)
deriving DecidableEq

/-- Redis `delete key`: remove the exact key. -/
def kvDelete (kv : KVStore) (k : String) : KVStore :=
  ⟨kv.entries.filter (fun e => !(e.1 == k))⟩

/-- `scan_iter(match=text + "*")` plus `delete` on every yielded key:
removes every key whose initial segment is `text`. -/
def kvScanDelete (kv : KVStore) (text : String) : KVStore :=
  ⟨kv.entries.filter (fun e => !(strLeadMatch text e.1))⟩

/-- The fixed text before the trailing `*` of the decision-cache pattern
`permcheck:user:{uid}:hospital:{scope}:*` (dependencies.py line 194). -/
def permcheckKeyStart (uid : Nat) (hid : Option Nat) : String :=
  "permcheck:user:" ++ toString uid ++ ":hospital:" ++ hospitalKeyOf hid ++ ":"

/-- dependencies.py `invalidate_user_permission_from_cache`: delete the
permission-set key of the affected scope, then scan-and-delete the
decision keys matching the pattern of that same scope. -/
def invalidate_user_permission_from_cache (kv : KVStore) (uid : Nat)
    (hid : Option Nat) : KVStore :=
  kvScanDelete (kvDelete kv (permsKeyFor uid hid)) (permcheckKeyStart uid hid)

/-! ## Revocation registry (database/redis.py)

The registry state carries the redis hash of blocked ids, the in-process
fallback map, the current time and whether redis operations currently
succeed.  Redis `set(..., ex=EXPIRY)` makes the key readable until the
expiry instant; the fallback map stores an explicit expiry timestamp.
`token_in_blocklist` also lazily deletes fallback entries it finds already
expired; that purge only removes entries it is about to report as absent,
so it is elided from the state transition. -/

/-- `getattr(Config, "JTI_EXPIRY_SECONDS", 3600)` (config.py value 3600). -/
def JTI_EXPIRY : Nat := 3600

/-- Update-or-append in an association list keyed by strings. -/
def storeSet : List (String × Nat) → String → Nat → List (String × Nat)
  | [], k, v => [(k, v)]
  | (k2, v2) :: rest, k, v =>
      if k2 == k then (k, v) :: rest else (k2, v2) :: storeSet rest k v

/-- Lookup in an association list keyed by strings. -/
def storeGet : List (String × Nat) → String → Option Nat
  | [], _ => none
  | (k2, v2) :: rest, k => if k2 == k then some v2 else storeGet rest k

/-- State of the revocation registry. -/
structure BlocklistState where
  redisOk : Bool
  redisStore : List (String × Nat)
  memStore : List (String × Nat)
  now : Nat
deriving DecidableEq

/-- redis.py `add_jti_to_blocklist`: empty ids are ignored; otherwise the
id is written to redis with TTL `JTI_EXPIRY`, falling back to the
in-process map (expiry timestamp `now + JTI_EXPIRY`) when redis raises. -/
def add_jti_to_blocklist (s : BlocklistState) (jti : String) : BlocklistState :=
  if jti = "" then s
  else if s.redisOk then
    { s with redisStore := storeSet s.redisStore jti (s.now + JTI_EXPIRY) }
  else
    { s with memStore := storeSet s.memStore jti (s.now + JTI_EXPIRY) }

/-- redis.py `token_in_blocklist`: empty ids are never revoked; with redis
reachable the answer is whether the key is still readable (not yet
expired); otherwise the fallback map is consulted, treating entries with
`exp_ts < now` as absent. -/
def token_in_blocklist (s : BlocklistState) (jti : String) : Bool :=
  if jti = "" then false
  else if s.redisOk then
    match storeGet s.redisStore jti with
    | some expiryT => s.now < expiryT
    | none => false
  else
    match storeGet s.memStore jti with
    | some exp_ts => !(exp_ts < s.now)
    | none => false

/-- The minimal decoded-token view the bearer's revocation step reads:
`jti = none` models a payload without the key. -/
structure TokenData where
  jti : Option String
  refresh : Bool
deriving DecidableEq

/-- dependencies.py lines 51-53 (`TokenBearer.__call__`): the token is
rejected as revoked exactly when the payload carries a truthy `jti` that
`token_in_blocklist` reports as blocked. -/
def bearerRevokedCheck (s : BlocklistState) (td : TokenData) : Bool :=
  match td.jti with
  | none => false
  | some j => if j = "" then false else token_in_blocklist s j

/-! ## Token claims snapshot (auth_helpers/auth_helpers.py) -/

/-- Permission names linked to a global role through `role_permission`
(the join of auth_helpers.py lines 76-80 and of `claimedResolve`). -/
def rolePermNames (db : DB) (rid : Nat) : List String :=
  (db.permission_master.filter (fun pm =>
    db.role_permission.any (fun rp =>
      rp.role_id == rid && rp.permission_id == pm.permission_id))).map
    (fun pm => pm.permission_name)

/-- Permission names linked to a tenant role through
`hospital_role_permission` (auth_helpers.py lines 97-101). -/
def hospRolePermNames (db : DB) (hrid : Nat) : List String :=
  (db.permission_master.filter (fun pm =>
    db.hospital_role_permission.any (fun hrp =>
      hrp.hospital_role_id == hrid &&
      hrp.permission_id == pm.permission_id))).map
    (fun pm => pm.permission_name)

/-- The accumulating state of `build_permissions_snapshot`:
`platform_perms` and the insertion-ordered `tenant_map`. -/
structure SnapState where
  platform : List String
  tenants : List (Nat × List String)
deriving DecidableEq

/-- `tenant_map[h].add(p)` on a `defaultdict(set)` held in insertion
order. -/
def tmAdd (tm : List (Nat × List String)) (h : Nat) (p : String) :
    List (Nat × List String) :=
  match tm with
  | [] => [(h, [p])]
  | (k, s) :: rest =>
      if k == h then (k, setAdd s p) :: rest else (k, s) :: tmAdd rest h p

/-- Step 1 of `build_permissions_snapshot` (lines 54-67): direct grants.
Each row's name is stripped; blank names are skipped; rows whose scope
normalizes to "tenant" go to the tenant map when they carry a hospital id
(and are silently dropped otherwise); every other row goes to the platform
set. -/
def snapStep1 : List UserPermissionsRow → SnapState → SnapState
  | [], st => st
  | up :: rest, st =>
      let pname := pyStrip up.permission_name
      if pname = "" then snapStep1 rest st
      else
        let p_scope := pyLower (pyStrip (up.scope.getD ""))
        if p_scope = "tenant" then
          match up.hospital_id with
          | some h => snapStep1 rest { st with tenants := tmAdd st.tenants h pname }
          | none => snapStep1 rest st
        else
          snapStep1 rest { st with platform := setAdd st.platform pname }

/-- Step 2 helper (lines 82-84): add each non-blank role permission name,
stripped, to the platform set. -/
def snapAddPlatform : List String → List String → List String
  | [], acc => acc
  | n :: rest, acc =>
      if n = "" then snapAddPlatform rest acc
      else snapAddPlatform rest (setAdd acc (pyStrip n))

/-- Step 3 helper (lines 103-105): add each non-blank tenant-role
permission name, stripped, to the tenant map under the assignment's
hospital. -/
def snapAddTenant (h : Nat) : List String → List (Nat × List String) →
    List (Nat × List String)
  | [], tm => tm
  | n :: rest, tm =>
      if n = "" then snapAddTenant h rest tm
      else snapAddTenant h rest (tmAdd tm h (pyStrip n))

/-- Step 3 of `build_permissions_snapshot` (lines 89-105): for every
tenant-role assignment of the user (active or not), gather that role's
permission names. -/
def snapStep3 (db : DB) : List HospitalUserRolesRow →
    List (Nat × List String) → List (Nat × List String)
  | [], tm => tm
  | hur :: rest, tm =>
      snapStep3 db rest (snapAddTenant hur.hospital_id
        (hospRolePermNames db hur.hospital_role_id) tm)

/-- auth_helpers.py `build_permissions_snapshot` (lines 41-116): the
grouped `permissions` token claim — a platform group when non-empty, then
one group per touched tenant, each permission list sorted. -/
def build_permissions_snapshot (db : DB) (u : UserRow) : List SnapshotGroup :=
  let st1 := snapStep1 (db.user_permissions.filter
    (fun r => r.user_id == u.user_id)) ⟨[], []⟩
  let platform2 :=
    match u.global_role_id with
    | some rid =>
        if rid = 0 then st1.platform
        else snapAddPlatform (rolePermNames db rid) st1.platform
    | none => st1.platform
  let tenants3 := snapStep3 db (db.hospital_user_roles.filter
    (fun r => r.user_id == u.user_id)) st1.tenants
  (if platform2 = [] then []
   else [⟨"platform", none, sortStrings platform2⟩]) ++
    tenants3.map (fun kv => ⟨"tenant", some kv.1, sortStrings kv.2⟩)

/-- auth_helpers.py `get_global_role_for_user` (lines 16-23):
`{role_id, role_name}` of the user's truthy `global_role_id`, when that
role exists. -/
def get_global_role_for_user (db : DB) (u : UserRow) : Option GlobalRoleClaim :=
  match u.global_role_id with
  | none => none
  | some rid =>
      if rid = 0 then none
      else
        match db.role_master.find? (fun r => r.role_id == rid) with
        | some rm => some ⟨some rm.role_id, some rm.role_name⟩
        | none => none

/-- auth_helpers.py `get_hospital_roles_for_user` (lines 25-39): every
tenant-role assignment of the user (no `active` filter), with the role
name looked up in `hospital_role`. -/
def get_hospital_roles_for_user (db : DB) (uid : Nat) : List HospRoleClaim :=
  (db.hospital_user_roles.filter (fun r => r.user_id == uid)).map
    (fun hur =>
      ⟨hur.hospital_id, hur.hospital_role_id,
       (db.hospital_role.find?
         (fun hr => hr.hospital_role_id == hur.hospital_role_id)).map
         (fun hr => hr.role_name)⟩)

/-- auth_helpers.py `build_token_user_payload` (lines 119-134): the full
`UserClaims` dict `{user_id, username, global_role, hospital_roles,
permissions}` (no email key). -/
def build_token_user_payload (db : DB) (u : UserRow) : TokenUserPayload :=
  { user_id := u.user_id,
    username := u.username,
    email := none,
    global_role := get_global_role_for_user db u,
    hospital_roles := some (get_hospital_roles_for_user db u.user_id),
    permissions := some (build_permissions_snapshot db u) }

/-- auth_service.py `authenticate_user` (lines 96-112): the `user` payload
embedded in both tokens issued at login — `{user_id, username, email}`
plus a `global_role` key when the user has a truthy `global_role_id` that
resolves to a role row.  No other key is ever added. -/
def authUserPayload (db : DB) (u : UserRow) : TokenUserPayload :=
  let base : TokenUserPayload :=
    { user_id := u.user_id, username := u.username, email := some u.email,
      global_role := none, hospital_roles := none, permissions := none }
  match u.global_role_id with
  | none => base
  | some rid =>
      if rid = 0 then base
      else
        match db.role_master.find? (fun r => r.role_id == rid) with
        | some rm => { base with global_role := some ⟨some rm.role_id, some rm.role_name⟩ }
        | none => base

/-! ## Concrete instances used by the theorems below -/

/-- Store: user 1 has no global role, while user 2 holds global role 1
("admin") linked to permission "Admin.All".  Nothing else. -/
def dbCross : DB :=
  { users := [⟨1, "alice", "a@x", none⟩, ⟨2, "bob", "b@x", some 1⟩],
    role_master := [⟨1, "admin"⟩],
    role_permission := [⟨1, 10⟩],
    permission_master := [⟨10, "Admin.All"⟩],
    user_permissions := [],
    hospital_user_roles := [],
    hospital_role_permission := [],
    hospital_role := [] }

/-- Store matching the specification scenario: user 7 has no global role
and holds the active tenant role "doctor" in tenant 3, whose only linked
permission is "doctor.profile.view". -/
def dbScenario : DB :=
  { users := [⟨7, "u7", "u7@x", none⟩],
    role_master := [],
    role_permission := [],
    permission_master := [⟨30, "doctor.profile.view"⟩],
    user_permissions := [],
    hospital_user_roles := [⟨7, 3, 101, true⟩],
    hospital_role_permission := [⟨101, 30⟩],
    hospital_role := [⟨101, 3, "doctor", true⟩] }

/-- `dbScenario` extended with one direct grant to user 7 scoped to tenant
3: permission "t1.only", scope "tenant", hospital 3. -/
def dbTenantGrant : DB :=
  { dbScenario with user_permissions := [⟨7, "t1.only", some "tenant", some 3⟩] }

/-- Store: user 1 holds an INACTIVE assignment to tenant role 50 of
hospital 2; role 50 is linked to permission "x.y". -/
def dbInactive : DB :=
  { users := [⟨1, "u1", "u1@x", none⟩],
    role_master := [],
    role_permission := [],
    permission_master := [⟨20, "x.y"⟩],
    user_permissions := [],
    hospital_user_roles := [⟨1, 2, 50, false⟩],
    hospital_role_permission := [⟨50, 20⟩],
    hospital_role := [⟨50, 2, "nurse", false⟩] }

/-- The user row of user 1 in `dbInactive`. -/
def rowInactive : UserRow := ⟨1, "u1", "u1@x", none⟩

/-- Store: user 5 has a single direct platform grant whose stored name is
" Doctor.View " (mixed case, padded). -/
def dbMixedCase : DB :=
  { users := [⟨5, "u5", "u5@x", none⟩],
    role_master := [],
    role_permission := [],
    permission_master := [],
    user_permissions := [⟨5, " Doctor.View ", some "platform", none⟩],
    hospital_user_roles := [],
    hospital_role_permission := [],
    hospital_role := [] }

/-- The user row of user 5 in `dbMixedCase`. -/
def rowMixedCase : UserRow := ⟨5, "u5", "u5@x", none⟩

/-- Store: user 1 has one direct grant "p.q" (platform scope). -/
def dbDirect : DB :=
  { users := [⟨1, "u1", "u1@x", none⟩],
    role_master := [],
    role_permission := [],
    permission_master := [],
    user_permissions := [⟨1, "p.q", some "platform", none⟩],
    hospital_user_roles := [],
    hospital_role_permission := [],
    hospital_role := [] }

/-- Store: user 9 ("alice") has no global role and one active assignment
to tenant role 40 ("doctor") of hospital 2, linked to permission
"doctor.profile.view". -/
def dbLogin : DB :=
  { users := [⟨9, "alice", "alice@x", none⟩],
    role_master := [],
    role_permission := [],
    permission_master := [⟨30, "doctor.profile.view"⟩],
    user_permissions := [],
    hospital_user_roles := [⟨9, 2, 40, true⟩],
    hospital_role_permission := [⟨40, 30⟩],
    hospital_role := [⟨40, 2, "doctor", true⟩] }

/-- The user row of user 9 in `dbLogin`. -/
def rowLogin : UserRow := ⟨9, "alice", "alice@x", none⟩

/-- A cache whose reads raise (redis unreachable). -/
def cacheFailing : Cache := ⟨true, fun _ => none, fun _ => none⟩

/-- A healthy, empty cache. -/
def cacheEmpty : Cache := ⟨false, fun _ => none, fun _ => none⟩

/-- A token-payload whose global role name normalizes to "superadmin". -/
def superUser : TokenUserPayload :=
  ⟨5, "root", some "root@x", some ⟨some 1, some "  SuperAdmin "⟩, none, none⟩

/-- A plain token-payload: user 1, no global role. -/
def plainUser : TokenUserPayload := ⟨1, "u1", some "u1@x", none, none, none⟩

/-- Cache key space holding user 5 permission-set and decision entries for
hospital scope 1, plus a decision entry of the same user for hospital
scope 2. -/
def kvTwoScopes : KVStore :=
  ⟨[("user:5:hospital:1:perms", "a"),
    ("permcheck:user:5:hospital:1:p1", "b"),
    ("permcheck:user:5:hospital:2:p1", "c")]⟩

/-- A revocation-registry state with redis reachable, both stores already
holding unrelated live entries, at time 10. -/
def blockStateR : BlocklistState := ⟨true, [("a", 5000)], [("b", 5000)], 10⟩

/-- Every string in the list is the stripped form of some source string. -/
def TrimListOK (l : List String) : Prop := ∀ p ∈ l, ∃ raw, p = pyStrip raw

/-- Every tenant bucket satisfies `TrimListOK`. -/
def TrimTMOK (tm : List (Nat × List String)) : Prop := ∀ kv ∈ tm, TrimListOK kv.2

/-! ## Theorems -/

theorem insertSorted_mem {p x : String} {l : List String} :
    p ∈ insertSorted x l ↔ p = x ∨ p ∈ l := by
  induction l with
  | nil => simp [insertSorted]
  | cons y ys ih =>
      simp only [insertSorted]
      split
      · simp
      · simp [ih]
        tauto

theorem sortStrings_mem {p : String} {l : List String} :
    p ∈ sortStrings l ↔ p ∈ l := by
  induction l with
  | nil => simp [sortStrings]
  | cons x xs ih => simp [sortStrings, insertSorted_mem, ih]

theorem setAdd_trim {l : List String} {x : String}
    (hl : TrimListOK l) (hx : ∃ raw, x = pyStrip raw) : TrimListOK (setAdd l x) := by
  intro p hp
  unfold setAdd at hp
  split at hp
  · exact hl p hp
  · rcases List.mem_append.mp hp with h | h
    · exact hl p h
    · simp at h
      subst h
      exact hx

theorem tmAdd_trim {tm : List (Nat × List String)} {h : Nat} {p : String}
    (htm : TrimTMOK tm) (hp : ∃ raw, p = pyStrip raw) : TrimTMOK (tmAdd tm h p) := by
  induction tm with
  | nil =>
      intro kv hkv
      simp [tmAdd] at hkv
      subst hkv
      intro q hq
      simp at hq
      subst hq
      exact hp
  | cons hd tl ih =>
      intro kv hkv
      rw [show tmAdd (hd :: tl) h p =
        (if hd.1 == h then (hd.1, setAdd hd.2 p) :: tl
         else hd :: tmAdd tl h p) from rfl] at hkv
      split at hkv
      · rcases List.mem_cons.mp hkv with h1 | h1
        · subst h1
          exact setAdd_trim (htm hd (List.mem_cons_self hd tl)) hp
        · exact htm kv (List.mem_cons_of_mem hd h1)
      · rcases List.mem_cons.mp hkv with h1 | h1
        · subst h1
          exact htm kv (List.mem_cons_self kv tl)
        · exact ih (fun kv2 hkv2 => htm kv2 (List.mem_cons_of_mem hd hkv2)) kv h1

theorem snapStep1_trim :
    ∀ (rows : List UserPermissionsRow) (st : SnapState),
      TrimListOK st.platform → TrimTMOK st.tenants →
      TrimListOK (snapStep1 rows st).platform ∧ TrimTMOK (snapStep1 rows st).tenants
  | [], st, hp, ht => ⟨hp, ht⟩
  | up :: rest, st, hp, ht => by
      rw [show snapStep1 (up :: rest) st =
        (let pname := pyStrip up.permission_name
         if pname = "" then snapStep1 rest st
         else
           let p_scope := pyLower (pyStrip (up.scope.getD ""))
           if p_scope = "tenant" then
             match up.hospital_id with
             | some h => snapStep1 rest { st with tenants := tmAdd st.tenants h pname }
             | none => snapStep1 rest st
           else snapStep1 rest { st with platform := setAdd st.platform pname })
        from rfl]
      simp only []
      split
      · exact snapStep1_trim rest st hp ht
      · split
        · cases hh : up.hospital_id with
          | some h =>
              exact snapStep1_trim rest _ hp
                (tmAdd_trim ht ⟨up.permission_name, rfl⟩)
          | none => exact snapStep1_trim rest st hp ht
        · exact snapStep1_trim rest _
            (setAdd_trim hp ⟨up.permission_name, rfl⟩) ht

theorem snapAddPlatform_trim :
    ∀ (names acc : List String), TrimListOK acc →
      TrimListOK (snapAddPlatform names acc)
  | [], acc, h => h
  | n :: rest, acc, h => by
      rw [show snapAddPlatform (n :: rest) acc =
        (if n = "" then snapAddPlatform rest acc
         else snapAddPlatform rest (setAdd acc (pyStrip n))) from rfl]
      split
      · exact snapAddPlatform_trim rest acc h
      · exact snapAddPlatform_trim rest _ (setAdd_trim h ⟨n, rfl⟩)

theorem snapAddTenant_trim :
    ∀ (h : Nat) (names : List String) (tm : List (Nat × List String)),
      TrimTMOK tm → TrimTMOK (snapAddTenant h names tm)
  | _, [], _, ht => ht
  | h, n :: rest, tm, ht => by
      rw [show snapAddTenant h (n :: rest) tm =
        (if n = "" then snapAddTenant h rest tm
         else snapAddTenant h rest (tmAdd tm h (pyStrip n))) from rfl]
      split
      · exact snapAddTenant_trim h rest tm ht
      · exact snapAddTenant_trim h rest _ (tmAdd_trim ht ⟨n, rfl⟩)

theorem snapStep3_trim (db : DB) :
    ∀ (rows : List HospitalUserRolesRow) (tm : List (Nat × List String)),
      TrimTMOK tm → TrimTMOK (snapStep3 db rows tm)
  | [], _, ht => ht
  | hur :: rest, tm, ht =>
      snapStep3_trim db rest _ (snapAddTenant_trim hur.hospital_id _ tm ht)

theorem build_permissions_snapshot_trim (db : DB) (u : UserRow) :
    ∀ g ∈ build_permissions_snapshot db u, ∀ p ∈ g.permissions,
      ∃ raw, p = pyStrip raw := by
  intro g hg p hp
  unfold build_permissions_snapshot at hg
  have hempty : TrimListOK ([] : List String) := by intro q hq; simp at hq
  have hemptyTM : TrimTMOK ([] : List (Nat × List String)) := by
    intro kv hkv; simp at hkv
  have hst1 := snapStep1_trim
    (db.user_permissions.filter (fun r => r.user_id == u.user_id)) ⟨[], []⟩
    hempty hemptyTM
  rcases List.mem_append.mp hg with h1 | h1
  · have hplat : TrimListOK (match u.global_role_id with
      | some rid =>
          if rid = 0 then
            (snapStep1 (db.user_permissions.filter
              (fun r => r.user_id == u.user_id)) ⟨[], []⟩).platform
          else snapAddPlatform (rolePermNames db rid)
            (snapStep1 (db.user_permissions.filter
              (fun r => r.user_id == u.user_id)) ⟨[], []⟩).platform
      | none =>
          (snapStep1 (db.user_permissions.filter
            (fun r => r.user_id == u.user_id)) ⟨[], []⟩).platform) := by
      cases u.global_role_id with
      | none => exact hst1.1
      | some rid =>
          by_cases hr : rid = 0
          · simp only [hr, if_pos rfl]
            exact hst1.1
          · simp only [if_neg hr]
            exact snapAddPlatform_trim _ _ hst1.1
    split at h1
    · simp at h1
    · simp at h1
      subst h1
      simp only [] at hp
      exact hplat p (sortStrings_mem.mp hp)
  · rcases List.mem_map.mp h1 with ⟨kv, hkv, hgkv⟩
    have htm := snapStep3_trim db
      (db.hospital_user_roles.filter (fun r => r.user_id == u.user_id))
      _ hst1.2
    subst hgkv
    simp only [] at hp
    exact htm kv hkv p (sortStrings_mem.mp hp)

theorem storeSet_idem (l : List (String × Nat)) (k : String) (v : Nat) :
    storeSet (storeSet l k v) k v = storeSet l k v := by
  induction l with
  | nil => simp [storeSet]
  | cons hd tl ih =>
      rw [show storeSet (hd :: tl) k v =
        (if hd.1 == k then (k, v) :: tl else hd :: storeSet tl k v) from rfl]
      split
      · simp [storeSet]
      · rw [show storeSet (hd :: storeSet tl k v) k v =
          (if hd.1 == k then (k, v) :: storeSet tl k v
           else hd :: storeSet (storeSet tl k v) k v) from rfl]
        simp_all

theorem storeGet_storeSet_self (l : List (String × Nat)) (k : String) (v : Nat) :
    storeGet (storeSet l k v) k = some v := by
  induction l with
  | nil => simp [storeSet, storeGet]
  | cons hd tl ih =>
      rw [show storeSet (hd :: tl) k v =
        (if hd.1 == k then (k, v) :: tl else hd :: storeSet tl k v) from rfl]
      split
      · simp [storeGet]
      · rw [show storeGet (hd :: storeSet tl k v) k =
          (if hd.1 == k then some hd.2 else storeGet (storeSet tl k v) k) from rfl]
        simp_all

theorem filter_and_filter {α : Type} (p q : α → Bool) (l : List α) :
    (l.filter p).filter q = l.filter (fun a => p a && q a) := by
  induction l with
  | nil => rfl
  | cons hd tl ih =>
      by_cases hp : p hd
      · by_cases hq : q hd <;> simp [List.filter, hp, hq, ih]
      · simp [List.filter, hp, ih]

/-- Claim C1: the resolution engine is claimed to return exactly the union
of the user's direct platform grants, the user's own global role's linked
permissions, the user's direct tenant grants for the given tenant, and the
linked permissions of the tenant roles actively held in that tenant.  The
code does not: in `dbCross`, user 1 has no global role, no grants and no
tenant roles, so the claimed union is empty, yet the engine returns
{"admin.all"} because its global-role subquery joins `users` without
restricting to the requesting user (a cross join picking up user 2's
role). -/
theorem c1_resolution_not_claimed_union :
    resolvePerms dbCross 1 none = {"admin.all"} ∧
    claimedResolve dbCross 1 none = (∅ : Finset String) := by
  constructor <;> decide

/-- Claim C2: tenant isolation is claimed (a grant in tenant T1 never
appears when resolving another tenant or the global context, and the spec
scenario demands `resolve(7, None) = {}`).  The code violates both parts:
the direct grant "t1.only" scoped to tenant 3 appears when resolving
tenant 4 (the direct-grant subquery has no tenant filter), and in the
scenario store `resolve(7, None)` returns {"doctor.profile.view"} instead
of the empty set (the tenant-role subquery is unfiltered when no tenant is
given). -/
theorem c2_tenant_isolation_fails :
    resolvePerms dbTenantGrant 7 (some 4) = {"t1.only"} ∧
    resolvePerms dbScenario 7 (some 3) = {"doctor.profile.view"} ∧
    resolvePerms dbScenario 7 none = {"doctor.profile.view"} := by
  refine ⟨by decide, by decide, by decide⟩

/-- Claim C3: an inactive tenant-role assignment is claimed to contribute
no permissions to the resolved set nor to the token snapshot.  The code
has no `is_active` filter in either place: in `dbInactive`, user 1's only
assignment is inactive, yet resolution for its tenant yields {"x.y"} and
the snapshot contains a tenant group with "x.y". -/
theorem c3_inactive_assignment_contributes :
    resolvePerms dbInactive 1 (some 2) = {"x.y"} ∧
    build_permissions_snapshot dbInactive rowInactive =
      [⟨"tenant", some 2, ["x.y"]⟩] := by
  constructor <;> decide

/-- Claim C4: a user whose global role name strips and lowercases to
"superadmin" passes every permission guard built with the default bypass
flag, and the guard short-circuits before any cache or store access: the
outcome is `allowed` with the cache returned untouched, for EVERY store
and every cache state (including a failing cache), so neither resolution
nor any cache read can influence it. -/
theorem c4_superadmin_bypass
    (user : TokenUserPayload) (gr : GlobalRoleClaim) (rname : String)
    (hgr : user.global_role = some gr) (hrn : gr.role_name = some rname)
    (hsa : pyLower (pyStrip rname) = "superadmin")
    (permissions : List String) (path_hid : Option Nat) (db : DB) (c : Cache) :
    require_permissions permissions true user path_hid db c = (.allowed user, c) := by
  have hsuper : is_super_admin user = true := by
    simp [is_super_admin, hgr, hrn, hsa]
  simp [require_permissions, hsuper]

/-- Witness for `c4_superadmin_bypass`: the concrete superadmin payload
passes a guard requiring "hospital.doctor.update" over an empty store. -/
theorem c4_superadmin_bypass_witness :
    require_permissions ["hospital.doctor.update"] true superUser none
      dbCross cacheFailing = (.allowed superUser, cacheFailing) :=
  c4_superadmin_bypass superUser ⟨some 1, some "  SuperAdmin "⟩ "  SuperAdmin "
    rfl rfl (by decide) ["hospital.doctor.update"] none dbCross cacheFailing

/-- Counterexample to claim C5: the token snapshot does NOT lower-case
permission names.  User 5's direct platform grant " Doctor.View " is
stored in the snapshot as "Doctor.View" (stripped but case-preserved),
while the resolution engine stores "doctor.view" for the same store. -/
theorem c5_snapshot_not_lowercased :
    build_permissions_snapshot dbMixedCase rowMixedCase =
      [⟨"platform", none, ["Doctor.View"]⟩] ∧
    resolvePerms dbMixedCase 5 none = {"doctor.view"} := by
  constructor <;> decide

/-- Claim C5 as amended: every member of the resolved permission set is
the trimmed-and-lowercased form of a source name (and exactly the
normalizations of the non-blank raw names occur), while every permission
name stored in a snapshot group is only trimmed — its case is preserved. -/
theorem c5_normalization_amended :
    (∀ (db : DB) (uid : Nat) (hid : Option Nat) (p : String),
      p ∈ resolvePerms db uid hid ↔
        ∃ raw, raw ∈ rawPermNames db uid hid ∧ raw ≠ "" ∧
          p = _normalize_perm raw) ∧
    (∀ (db : DB) (u : UserRow), ∀ g ∈ build_permissions_snapshot db u,
      ∀ p ∈ g.permissions, ∃ raw, p = pyStrip raw) := by
  constructor
  · intro db uid hid p
    simp only [resolvePerms, List.mem_toFinset, List.mem_map, List.mem_filter,
      decide_eq_true_eq]
    constructor
    · rintro ⟨raw, ⟨hmem, hne⟩, heq⟩
      exact ⟨raw, hmem, hne, heq.symm⟩
    · rintro ⟨raw, hmem, hne, heq⟩
      exact ⟨raw, ⟨hmem, hne⟩, heq.symm⟩
  · intro db u g hg p hp
    exact build_permissions_snapshot_trim db u g hg p hp

/-- Witness for `c5_normalization_amended`, at the mixed-case store: the
characterization applies to "doctor.view", and the snapshot entry
"Doctor.View" is the strip of some raw source string. -/
theorem c5_normalization_amended_witness :
    ("doctor.view" ∈ resolvePerms dbMixedCase 5 none ↔
      ∃ raw, raw ∈ rawPermNames dbMixedCase 5 none ∧ raw ≠ "" ∧
        "doctor.view" = _normalize_perm raw) ∧
    (∃ raw, "Doctor.View" = pyStrip raw) :=
  ⟨c5_normalization_amended.1 dbMixedCase 5 none "doctor.view",
   c5_normalization_amended.2 dbMixedCase rowMixedCase
     ⟨"platform", none, ["Doctor.View"]⟩ (by decide) "Doctor.View" (by decide)⟩

/-- Counterexample to claim C6: after adding or removing a direct grant,
invalidation is claimed to delete ALL of the user's decision-cache
entries across every tenant context.  On `kvTwoScopes`, invalidating user
5 for hospital 1 deletes that scope's permission-set key and decision key
but leaves the decision entry of hospital scope 2 in place. -/
theorem c6_other_scope_decision_survives :
    invalidate_user_permission_from_cache kvTwoScopes 5 (some 1) =
      ⟨[("permcheck:user:5:hospital:2:p1", "c")]⟩ := by
  decide

/-- Claim C6 as amended: the invalidation deletes exactly the user's
permission-set key for the affected scope together with every
decision-cache key of that same scope (keys beginning with
`permcheck:user:<id>:hospital:<scope>:`); entries of every other scope
— including the user's decision entries for other tenants — are kept. -/
theorem c6_invalidation_exact_scope (kv : KVStore) (uid : Nat)
    (hid : Option Nat) :
    invalidate_user_permission_from_cache kv uid hid =
      ⟨kv.entries.filter (fun e =>
        !(e.1 == permsKeyFor uid hid) &&
        !(strLeadMatch (permcheckKeyStart uid hid) e.1))⟩ := by
  unfold invalidate_user_permission_from_cache kvScanDelete kvDelete
  simp only [filter_and_filter]

/-- Counterexample to claim C7: a failing cache read is claimed to fall
back transparently to direct resolution.  With the failing cache, the
call raises (`Except.error`) even though the store would authoritatively
yield {"p.q"}. -/
theorem c7_no_fallback_on_cache_failure :
    get_user_permissions dbDirect cacheFailing 1 none = Except.error () ∧
    resolvePerms dbDirect 1 none = {"p.q"} := by
  constructor
  · rfl
  · decide

/-- Claim C7 as amended: a failing cache read is NOT handled — the
exception propagates and the call fails, both in `get_user_permissions`
and in the guard dependency (for any non-bypassed user with a valid id);
there is no fallback to direct resolution. -/
theorem c7_cache_failure_propagates
    (db : DB) (c : Cache) (uid : Nat) (hid : Option Nat)
    (permissions : List String) (asa : Bool) (user : TokenUserPayload)
    (path_hid : Option Nat)
    (hf : c.failing = true)
    (hns : (asa && is_super_admin user) = false)
    (hu : user.user_id ≠ 0) :
    get_user_permissions db c uid hid = .error () ∧
    require_permissions permissions asa user path_hid db c = (.exn, c) := by
  constructor
  · simp [get_user_permissions, hf]
  · simp [require_permissions, hns, hu, hf]

/-- Witness for `c7_cache_failure_propagates` at a concrete store, user
and failing cache. -/
theorem c7_cache_failure_propagates_witness :
    get_user_permissions dbDirect cacheFailing 1 none = .error () ∧
    require_permissions ["p.q"] true plainUser none dbDirect cacheFailing =
      (.exn, cacheFailing) :=
  c7_cache_failure_propagates dbDirect cacheFailing 1 none ["p.q"] true
    plainUser none rfl (by decide) (by decide)

/-- Claim C8: revocation is idempotent.  For any non-empty token id,
revoking twice in succession leaves the registry in exactly the state of
revoking once; after revocation the id reports as revoked, and it stays
revoked at every instant before the expiry `now + JTI_EXPIRY` of the
(single) write.  The operation is total, so revoking an already-revoked
or unknown id always completes without error. -/
theorem c8_revocation_idempotent (s : BlocklistState) (jti : String)
    (hne : jti ≠ "") :
    add_jti_to_blocklist (add_jti_to_blocklist s jti) jti =
      add_jti_to_blocklist s jti ∧
    token_in_blocklist (add_jti_to_blocklist s jti) jti = true ∧
    (∀ t, t < s.now + JTI_EXPIRY →
      token_in_blocklist { add_jti_to_blocklist s jti with now := t } jti = true) := by
  refine ⟨?_, ?_, ?_⟩
  · by_cases hr : s.redisOk <;>
      simp [add_jti_to_blocklist, hne, hr, storeSet_idem]
  · by_cases hr : s.redisOk <;>
      simp [add_jti_to_blocklist, token_in_blocklist, hne, hr,
        storeGet_storeSet_self, JTI_EXPIRY]
  · intro t ht
    simp only [JTI_EXPIRY] at ht
    by_cases hr : s.redisOk <;>
      simp [add_jti_to_blocklist, token_in_blocklist, hne, hr,
        storeGet_storeSet_self, JTI_EXPIRY] <;>
      omega

/-- Witness for `c8_revocation_idempotent` on a populated registry state
with the id "jti-123". -/
theorem c8_revocation_idempotent_witness :
    add_jti_to_blocklist (add_jti_to_blocklist blockStateR "jti-123") "jti-123" =
      add_jti_to_blocklist blockStateR "jti-123" ∧
    token_in_blocklist (add_jti_to_blocklist blockStateR "jti-123") "jti-123" =
      true ∧
    (∀ t, t < blockStateR.now + JTI_EXPIRY →
      token_in_blocklist
        { add_jti_to_blocklist blockStateR "jti-123" with now := t } "jti-123" =
        true) :=
  c8_revocation_idempotent blockStateR "jti-123" (by decide)

/-- Counterexample to claim C9: the user payload embedded at login is NOT
the full `UserClaims` snapshot.  In `dbLogin`, user 9 holds an active
tenant role with a permission, yet the login payload carries no
`hospital_roles` and no `permissions` key, while the full snapshot
builder (never invoked at login) would supply both. -/
theorem c9_login_payload_missing_claims :
    authUserPayload dbLogin rowLogin ≠ build_token_user_payload dbLogin rowLogin ∧
    (authUserPayload dbLogin rowLogin).hospital_roles = none ∧
    (authUserPayload dbLogin rowLogin).permissions = none ∧
    (build_token_user_payload dbLogin rowLogin).hospital_roles =
      some [⟨2, 40, some "doctor"⟩] ∧
    (build_token_user_payload dbLogin rowLogin).permissions =
      some [⟨"tenant", some 2, ["doctor.profile.view"]⟩] := by
  refine ⟨by decide, rfl, rfl, by decide, by decide⟩

/-- Claim C9 as amended: for every store and user, the payload embedded in
both tokens at login consists of the user id, username and email, plus the
resolved global role (agreeing with the claims helper
`get_global_role_for_user`); the tenant-role list and the grouped
permission snapshot are never included. -/
theorem c9_login_payload_shape (db : DB) (u : UserRow) :
    (authUserPayload db u).user_id = u.user_id ∧
    (authUserPayload db u).username = u.username ∧
    (authUserPayload db u).email = some u.email ∧
    (authUserPayload db u).global_role = get_global_role_for_user db u ∧
    (authUserPayload db u).hospital_roles = none ∧
    (authUserPayload db u).permissions = none := by
  unfold authUserPayload get_global_role_for_user
  cases u.global_role_id with
  | none => simp
  | some rid =>
      by_cases hr : rid = 0
      · simp [hr]
      · simp only [if_neg hr]
        cases db.role_master.find? (fun r => r.role_id == rid) with
        | none => simp
        | some rm => simp

/-- Claim C10: revoking an empty id records nothing and an empty id never
reports revoked; a token whose payload carries no `jti` (or an empty one)
is never rejected as revoked by the bearer check, whatever the registry
state. -/
theorem c10_no_jti_never_revoked (s : BlocklistState) (td : TokenData)
    (h : td.jti = none ∨ td.jti = some "") :
    add_jti_to_blocklist s "" = s ∧
    token_in_blocklist s "" = false ∧
    bearerRevokedCheck s td = false := by
  refine ⟨by simp [add_jti_to_blocklist], by simp [token_in_blocklist], ?_⟩
  rcases h with h | h <;> simp [bearerRevokedCheck, h]

/-- Witness for `c10_no_jti_never_revoked` on a populated registry state
and a token payload without a `jti` key. -/
theorem c10_no_jti_never_revoked_witness :
    add_jti_to_blocklist blockStateR "" = blockStateR ∧
    token_in_blocklist blockStateR "" = false ∧
    bearerRevokedCheck blockStateR ⟨none, false⟩ = false :=
  c10_no_jti_never_revoked blockStateR ⟨none, false⟩ (Or.inl rfl)
